import Mathlib

/-!
Shallow embedding of the snapshot subsystem of
`src/server/src/diskstore/snapshot.rs` (Skytable), together with proofs
about the retention queue, the snapshot-name matcher, startup recovery
and the blocking section of snapshot creation.
-/

namespace Snapshot

/-- `DEF_SNAPSHOT_COUNT` from the source: the default snapshot count. -/
def DEF_SNAPSHOT_COUNT : Nat := 12

/-! ## The retention queue (`mod queue` in the source)

Rust's `Vec<String>` becomes `List String`; `Vec::remove(0)` is
`List.head` plus `List.tail`, `Vec::push` is append of a singleton. -/

/-- `queue::Queue`: a vector of snapshot names, a maximum length, and the
`dontpop` flag (true means unbounded: never evict). -/
structure Queue where
  queue : List String
  maxlen : Nat
  dontpop : Bool
  deriving Repr, DecidableEq

/-- `Queue::new((maxlen, dontpop))`: empty queue with the given config
(the Rust `Vec::with_capacity` pre-sizing has no observable effect). -/
def Queue.new (cfg : Nat × Bool) : Queue :=
  { queue := [], maxlen := cfg.1, dontpop := cfg.2 }

/-- `Queue::init_pre((maxlen, dontpop), queue)`: queue seeded with an
existing list of names, unvalidated. -/
def Queue.init_pre (cfg : Nat × Bool) (queue : List String) : Queue :=
  { queue := queue, maxlen := cfg.1, dontpop := cfg.2 }

/-- `Queue::is_overflow`: `self.queue.len() == self.maxlen` (equality,
not `>=`). -/
def Queue.is_overflow (q : Queue) : Bool :=
  q.queue.length == q.maxlen

/-- `Queue::pop`: `None` on an empty queue, otherwise removes and returns
the element at index 0 (the oldest). -/
def Queue.pop (q : Queue) : Option String × Queue :=
  match q.queue with
  | [] => (none, q)
  | x :: xs => (some x, { q with queue := xs })

/-- `Queue::add(item)`: if `dontpop`, push and return `None`; otherwise
pop the oldest element first exactly when `is_overflow`, push the new
item, and return what `pop` gave. -/
def Queue.add (q : Queue) (item : String) : Option String × Queue :=
  if q.dontpop then
    (none, { q with queue := q.queue ++ [item] })
  else
    let r := if q.is_overflow then q.pop else (none, q)
    (r.1, { r.2 with queue := r.2.queue ++ [item] })

/-- Run a sequence of `add` calls, collecting each call's return value in
order. -/
def Queue.runAdds (q : Queue) : List String → Queue × List (Option String)
  | [] => (q, [])
  | x :: xs =>
    let r := q.add x
    let rest := r.2.runAdds xs
    (rest.1, r.1 :: rest.2)

/-! Basic bookkeeping lemmas: `add` never changes `maxlen` or `dontpop`. -/

theorem Queue.add_maxlen (q : Queue) (x : String) :
    (q.add x).2.maxlen = q.maxlen := by
  unfold Queue.add Queue.pop
  cases h : q.dontpop <;> simp
  split <;> (try split) <;> simp_all

theorem Queue.add_dontpop (q : Queue) (x : String) :
    (q.add x).2.dontpop = q.dontpop := by
  unfold Queue.add Queue.pop
  cases h : q.dontpop <;> simp
  split <;> (try split) <;> simp_all

/-- An unbounded (`dontpop = true`) `add` appends and returns `none`. -/
theorem Queue.add_unbounded (q : Queue) (x : String) (hd : q.dontpop = true) :
    q.add x = (none, { q with queue := q.queue ++ [x] }) := by
  unfold Queue.add
  simp [hd]

/-- A bounded `add` below capacity appends and returns `none`. -/
theorem Queue.add_below (q : Queue) (x : String) (hd : q.dontpop = false)
    (hlt : q.queue.length ≠ q.maxlen) :
    q.add x = (none, { q with queue := q.queue ++ [x] }) := by
  unfold Queue.add Queue.is_overflow
  simp [hd, hlt]

/-- A bounded `add` at capacity on a nonempty queue evicts the head. -/
theorem Queue.add_full (q : Queue) (x h : String) (t : List String)
    (hd : q.dontpop = false) (hq : q.queue = h :: t)
    (hlen : q.queue.length = q.maxlen) :
    q.add x = (some h, { q with queue := t ++ [x] }) := by
  have hlen' : t.length + 1 = q.maxlen := by simpa [hq] using hlen
  unfold Queue.add Queue.is_overflow Queue.pop
  simp [hd, hq, hlen']

/-- Unfolding lemma for `runAdds` on a cons cell. -/
theorem Queue.runAdds_cons (q : Queue) (x : String) (xs : List String) :
    q.runAdds (x :: xs) =
      (((q.add x).2.runAdds xs).1, (q.add x).1 :: ((q.add x).2.runAdds xs).2) := rfl

/-- Running the adds of `as ++ bs` is running `as` then `bs`. -/
theorem Queue.runAdds_append (q : Queue) (as bs : List String) :
    q.runAdds (as ++ bs) =
      (((q.runAdds as).1.runAdds bs).1, (q.runAdds as).2 ++ ((q.runAdds as).1.runAdds bs).2) := by
  induction as generalizing q with
  | nil => simp [Queue.runAdds]
  | cons a as ih =>
    simp only [List.cons_append, Queue.runAdds_cons, ih, List.append_eq]

/-- With `dontpop = true`, a run of adds appends everything and every
call returns `none`. -/
theorem Queue.runAdds_unbounded (q : Queue) (hd : q.dontpop = true) (xs : List String) :
    q.runAdds xs = ({ q with queue := q.queue ++ xs }, List.replicate xs.length none) := by
  induction xs generalizing q with
  | nil => simp [Queue.runAdds]
  | cons x xs ih =>
    rw [Queue.runAdds_cons, Queue.add_unbounded q x hd]
    rw [ih { q with queue := q.queue ++ [x] } hd]
    simp [List.replicate_succ]

/-- Filling a bounded queue: as long as the adds fit under `maxlen`, they
are appended in order and each call returns `none`. -/
theorem Queue.runAdds_fill (q : Queue) (hd : q.dontpop = false) (xs : List String)
    (hfit : q.queue.length + xs.length ≤ q.maxlen) :
    q.runAdds xs = ({ q with queue := q.queue ++ xs }, List.replicate xs.length none) := by
  induction xs generalizing q with
  | nil => simp [Queue.runAdds]
  | cons x xs ih =>
    have hne : q.queue.length ≠ q.maxlen := by simp at hfit; omega
    rw [Queue.runAdds_cons, Queue.add_below q x hd hne]
    rw [ih { q with queue := q.queue ++ [x] } hd (by simp at hfit ⊢; omega)]
    simp [List.replicate_succ]

/-- A bounded queue already strictly over capacity: every add appends and
returns `none` (the overflow test is an equality test, which never fires
again). -/
theorem Queue.runAdds_over_capacity (q : Queue) (hd : q.dontpop = false)
    (hov : q.maxlen < q.queue.length) (xs : List String) :
    q.runAdds xs = ({ q with queue := q.queue ++ xs }, List.replicate xs.length none) := by
  induction xs generalizing q with
  | nil => simp [Queue.runAdds]
  | cons x xs ih =>
    have hne : q.queue.length ≠ q.maxlen := by omega
    rw [Queue.runAdds_cons, Queue.add_below q x hd hne]
    rw [ih { q with queue := q.queue ++ [x] } hd (by simp; omega)]
    simp [List.replicate_succ]

/-- One bounded `add` keeps the length under `maxlen`, provided the queue
was under `maxlen` and `maxlen` is positive. -/
theorem Queue.add_length_le (q : Queue) (x : String) (hd : q.dontpop = false)
    (hcap : 1 ≤ q.maxlen) (hlen : q.queue.length ≤ q.maxlen) :
    (q.add x).2.queue.length ≤ q.maxlen := by
  rcases eq_or_ne q.queue.length q.maxlen with heq | hne
  · have hnil : q.queue ≠ [] := by
      intro h
      rw [h] at heq
      simp at heq
      omega
    obtain ⟨h, t, hht⟩ := List.exists_cons_of_ne_nil hnil
    rw [Queue.add_full q x h t hd hht heq]
    have : t.length + 1 = q.maxlen := by simpa [hht] using heq
    simp
    omega
  · rw [Queue.add_below q x hd hne]
    simp
    omega

/-- A bounded `add` at capacity on a nonempty queue, phrased with
`head?` and `tail`. -/
theorem Queue.add_full_head (q : Queue) (x : String) (hd : q.dontpop = false)
    (hne : q.queue ≠ []) (hlen : q.queue.length = q.maxlen) :
    q.add x = (q.queue.head?, { q with queue := q.queue.tail ++ [x] }) := by
  obtain ⟨h, t, hht⟩ := List.exists_cons_of_ne_nil hne
  rw [Queue.add_full q x h t hd hht hlen, hht]
  simp

/-- The capacity invariant `len ≤ maxlen` (with `maxlen ≥ 1`) is
preserved by any run of adds on a bounded queue. -/
theorem Queue.runAdds_length_le (q : Queue) (hd : q.dontpop = false)
    (hcap : 1 ≤ q.maxlen) (hlen : q.queue.length ≤ q.maxlen) (xs : List String) :
    (q.runAdds xs).1.queue.length ≤ q.maxlen ∧
      (q.runAdds xs).1.maxlen = q.maxlen ∧ (q.runAdds xs).1.dontpop = false := by
  induction xs generalizing q with
  | nil => exact ⟨hlen, rfl, hd⟩
  | cons x xs ih =>
    rw [Queue.runAdds_cons]
    have h1 := Queue.add_length_le q x hd hcap hlen
    have h2 := Queue.add_maxlen q x
    have h3 := Queue.add_dontpop q x
    have := ih (q.add x).2 (h3.trans hd) (h2 ▸ hcap) (h2 ▸ h1)
    simpa [h2] using this

/-! ## Claims about the retention queue -/

/-- C9: for every queue with `unbounded = true` (`dontpop`) and any
capacity hint, every `add` appends the item and returns `none`; no
sequence of adds ever evicts an element. -/
theorem claim_unbounded_never_evicts (q : Queue) (hd : q.dontpop = true)
    (xs : List String) :
    q.runAdds xs = ({ q with queue := q.queue ++ xs }, List.replicate xs.length none) :=
  Queue.runAdds_unbounded q hd xs

/-- Witness for C9: the spec's concrete scenario, capacity hint 4 with
six adds, every call returning `none`. -/
theorem claim_unbounded_never_evicts_witness :
    (Queue.new (4, true)).runAdds ["snap1", "snap2", "snap3", "snap4", "snap5", "snap6"] =
      ({ queue := ["snap1", "snap2", "snap3", "snap4", "snap5", "snap6"],
         maxlen := 4, dontpop := true }, List.replicate 6 none) :=
  claim_unbounded_never_evicts (Queue.new (4, true)) rfl
    ["snap1", "snap2", "snap3", "snap4", "snap5", "snap6"]

/-- C6: a bounded queue whose length strictly exceeds its capacity
(reachable by seeding via `init_pre`): every subsequent `add` appends and
returns `none`, so the length only grows and stays above the capacity. -/
theorem claim_over_capacity_never_recovers (q : Queue) (hd : q.dontpop = false)
    (hov : q.maxlen < q.queue.length) (xs : List String) :
    q.runAdds xs = ({ q with queue := q.queue ++ xs }, List.replicate xs.length none) ∧
      q.maxlen < (q.runAdds xs).1.queue.length := by
  have h := Queue.runAdds_over_capacity q hd hov xs
  refine ⟨h, ?_⟩
  rw [h]
  simp
  omega

/-- Witness for C6: a queue of capacity 1 seeded with two items; two
further adds both return `none` and the length grows to 4. -/
theorem claim_over_capacity_never_recovers_witness :
    (Queue.init_pre (1, false) ["s1", "s2"]).runAdds ["s3", "s4"] =
      ({ queue := ["s1", "s2", "s3", "s4"], maxlen := 1, dontpop := false },
        List.replicate 2 none) ∧
      1 < ((Queue.init_pre (1, false) ["s1", "s2"]).runAdds ["s3", "s4"]).1.queue.length :=
  claim_over_capacity_never_recovers (Queue.init_pre (1, false) ["s1", "s2"]) rfl
    (by decide) ["s3", "s4"]

/-- Counterexample to C3 as stated: a bounded queue of capacity 1 seeded
via `init_pre` with two items has length 3 > 1 after an `add` call; and
a fresh bounded queue of capacity 0 has length 1 > 0 after an `add` call
(`pop` of the empty queue removes nothing before the push). -/
theorem claim_capacity_invariant_counterexample :
    ((Queue.init_pre (1, false) ["s1", "s2"]).dontpop = false ∧
      (Queue.init_pre (1, false) ["s1", "s2"]).maxlen <
        ((Queue.init_pre (1, false) ["s1", "s2"]).add "s3").2.queue.length) ∧
    ((Queue.new (0, false)).dontpop = false ∧
      (Queue.new (0, false)).maxlen <
        ((Queue.new (0, false)).add "s1").2.queue.length) := by
  decide

/-- C3 amended: for every bounded queue with positive capacity whose
length does not exceed its capacity (in particular any queue built by
`new`, or seeded by `init_pre` with at most capacity items), after every
`add` call of any sequence of adds the length is at most the capacity. -/
theorem claim_capacity_invariant (q : Queue) (hd : q.dontpop = false)
    (hcap : 1 ≤ q.maxlen) (hlen : q.queue.length ≤ q.maxlen)
    (xs : List String) (i : Nat) :
    ((q.runAdds (xs.take i)).1).queue.length ≤ q.maxlen :=
  (Queue.runAdds_length_le q hd hcap hlen (xs.take i)).1

/-- Witness for C3: a fresh bounded queue of capacity 4 after the first
five of six adds still holds at most 4 items. -/
theorem claim_capacity_invariant_witness :
    (((Queue.new (4, false)).runAdds
        (["snap1", "snap2", "snap3", "snap4", "snap5", "snap6"].take 5)).1).queue.length ≤
      (Queue.new (4, false)).maxlen :=
  claim_capacity_invariant (Queue.new (4, false)) rfl (by decide) (by decide)
    ["snap1", "snap2", "snap3", "snap4", "snap5", "snap6"] 5

/-- Counterexample to C5 as stated: for capacity `N = 0` the
`(N+1)`-th and `(N+2)`-th adds return `none`, not the first and second
items added (`pop` on the empty queue yields `none`, and after one add
the length 1 no longer equals the capacity 0). -/
theorem claim_fifo_counterexample :
    (Queue.new (0, false)).dontpop = false ∧
      ((Queue.new (0, false)).add "snap1").1 ≠ some "snap1" ∧
      (((Queue.new (0, false)).add "snap1").2.add "snap2").1 ≠ some "snap2" := by
  decide

/-- C5 amended: for every bounded queue of capacity `N ≥ 1` starting
empty, the first `N` adds each return `none`, the `(N+1)`-th add returns
the item added first, and the `(N+2)`-th add returns the item added
second — eviction removes the element at index 0. -/
theorem claim_fifo_eviction (N : Nat) (hN : 1 ≤ N) (xs : List String)
    (hlen : xs.length = N) (u v : String) :
    ((Queue.new (N, false)).runAdds (xs ++ [u, v])).2 =
      List.replicate N none ++ [(xs ++ [u, v])[0]?, (xs ++ [u, v])[1]?] := by
  obtain ⟨x0, t, rfl⟩ : ∃ x0 t, xs = x0 :: t := by
    cases xs with
    | nil => simp at hlen; omega
    | cons a l => exact ⟨a, l, rfl⟩
  rw [Queue.runAdds_append]
  rw [Queue.runAdds_fill (Queue.new (N, false)) rfl (x0 :: t)
    (by simp at hlen; simp [Queue.new]; omega)]
  have hq1 : ({ Queue.new (N, false) with queue := (Queue.new (N, false)).queue ++ (x0 :: t) })
      = (⟨x0 :: t, N, false⟩ : Queue) := by
    simp [Queue.new]
  rw [hq1]
  have hA : (⟨x0 :: t, N, false⟩ : Queue).add u =
      (some x0, (⟨t ++ [u], N, false⟩ : Queue)) :=
    Queue.add_full ⟨x0 :: t, N, false⟩ u x0 t rfl rfl hlen
  have hB : (⟨t ++ [u], N, false⟩ : Queue).add v =
      ((t ++ [u]).head?, (⟨(t ++ [u]).tail ++ [v], N, false⟩ : Queue)) :=
    Queue.add_full_head ⟨t ++ [u], N, false⟩ v rfl (by simp) (by simp at hlen ⊢; omega)
  rw [Queue.runAdds_cons, hA]
  rw [Queue.runAdds_cons, hB]
  have hhd : (t ++ [u]).head? = ((x0 :: t) ++ [u, v])[1]? := by
    cases t <;> simp
  rw [Queue.runAdds, hlen, hhd]
  simp

/-- Witness for C5: the spec's concrete scenario, capacity 4 with
`snap1`..`snap6`: four `none`s, then `snap1`, then `snap2`. -/
theorem claim_fifo_eviction_witness :
    ((Queue.new (4, false)).runAdds
        (["snap1", "snap2", "snap3", "snap4"] ++ ["snap5", "snap6"])).2 =
      List.replicate 4 none ++ [some "snap1", some "snap2"] :=
  claim_fifo_eviction 4 (by decide) ["snap1", "snap2", "snap3", "snap4"] rfl
    "snap5" "snap6"

/-! ## The snapshot creation pipeline

`mksnap_blocking_section` performs two fallible filesystem calls
(`storage::flush::snap_flush_full` and `fs::remove_dir_all`); their
outcomes are supplied as oracle booleans. The observable effects of a
run (lock operations, what was written or deleted) are recorded in a
`BlockOutcome`. -/

/-- The observable outcome of one run of `mksnap_blocking_section`. -/
structure BlockOutcome where
  /-- The boolean return value. -/
  ret : Bool
  /-- How many times `handle.lock_snap()` was called. -/
  lockAcquires : Nat
  /-- How many times the lock guard was dropped. -/
  lockReleases : Nat
  /-- Whether `snap_flush_full` succeeded: the new snapshot is on disk. -/
  flushed : Bool
  /-- Whether `remove_dir_all` was invoked on the old snapshot. -/
  removeAttempted : Bool
  /-- Whether the old snapshot directory was actually deleted. -/
  removedOld : Bool
  deriving Repr, DecidableEq

/-- `SnapshotEngine::mksnap_blocking_section(snapname, handle, oldsnap)`:
lock on entry; flush; on flush error drop the lock and return `false`;
otherwise, if an old snapshot was evicted, delete its directory, dropping
the lock and returning `false` on error; drop the lock and return `true`. -/
def mksnap_blocking_section (oldsnap : Option String) (flushOk removeOk : Bool) :
    BlockOutcome :=
  if flushOk = false then
    { ret := false, lockAcquires := 1, lockReleases := 1,
      flushed := false, removeAttempted := false, removedOld := false }
  else
    match oldsnap with
    | some _ =>
      if removeOk = false then
        { ret := false, lockAcquires := 1, lockReleases := 1,
          flushed := true, removeAttempted := true, removedOld := false }
      else
        { ret := true, lockAcquires := 1, lockReleases := 1,
          flushed := true, removeAttempted := true, removedOld := true }
    | none =>
      { ret := true, lockAcquires := 1, lockReleases := 1,
        flushed := true, removeAttempted := false, removedOld := false }

/-- `SnapshotEngine::_mksnap_nonblocking_section`: generate the snapshot
name (the formatted current time, passed in as `now`) and record it in
the queue, capturing the evicted identifier if any. -/
def mksnap_nonblocking_section (now : String) (q : Queue) :
    (String × Option String) × Queue :=
  ((now, (q.add now).1), (q.add now).2)

/-- `SnapshotEngine::mksnap`: run the nonblocking bookkeeping, then the
blocking section on the worker context, returning its boolean result
(and, in this model, its observable outcome and the updated queue). -/
def mksnap (now : String) (q : Queue) (flushOk removeOk : Bool) :
    (Bool × BlockOutcome) × Queue :=
  let r := mksnap_nonblocking_section now q
  let out := mksnap_blocking_section r.1.2 flushOk removeOk
  ((out.ret, out), r.2)

/-- C7: in the blocking section, a failed flush leaves the evicted
directory untouched and returns `false`; a failed delete after a
successful flush returns `false` with the new snapshot persisted; and
the call returns `true` exactly when the flush and any required delete
both succeed. -/
theorem claim_blocking_partial_failure (old : Option String) (o : String)
    (flushOk removeOk : Bool) :
    ((mksnap_blocking_section old false removeOk).ret = false ∧
      (mksnap_blocking_section old false removeOk).removeAttempted = false ∧
      (mksnap_blocking_section old false removeOk).removedOld = false) ∧
    ((mksnap_blocking_section (some o) true false).ret = false ∧
      (mksnap_blocking_section (some o) true false).flushed = true) ∧
    ((mksnap_blocking_section old flushOk removeOk).ret = true ↔
      (flushOk = true ∧ (old = none ∨ removeOk = true))) := by
  cases old <;> cases flushOk <;> cases removeOk <;>
    simp [mksnap_blocking_section]

/-- C8: across the whole creation pipeline, the snapshot lock is
acquired exactly once and released exactly once, on the success path and
on every failure path. -/
theorem claim_lock_discipline (now : String) (q : Queue) (flushOk removeOk : Bool) :
    ((mksnap now q flushOk removeOk).1.2).lockAcquires = 1 ∧
      ((mksnap now q flushOk removeOk).1.2).lockReleases = 1 := by
  unfold mksnap mksnap_nonblocking_section mksnap_blocking_section
  cases flushOk <;> rcases (q.add now).1 with _ | x <;> cases removeOk <;> simp

/-! ## The naming validator `SNAP_MATCH`

The source regex, anchored on both sides:

  `^\d\x7b4\x7d(0[1-9]|1[012])(0[1-9]|[12][0-9]|3[01])(-)(?:(?:([01]?\d|2[0-3]))?([0-5]?\d))?([0-5]?\d)$`

Every alternative of the month and day groups is exactly two characters
wide and the `\d\x7b4\x7d` prefix is four, so a match decomposes uniquely up
to the `-`; the time part is the genuinely nondeterministic remainder,
modelled by an explicit search over split points. Rust's `\d` is
Unicode-aware; this model covers its ASCII fragment `[0-9]`, which is
the domain the characterization theorem quantifies over (the generator
`Utc::now().format` only ever produces ASCII digits). -/

/-- `\d` (ASCII fragment): a decimal digit `0`–`9` (code points 48–57). -/
def isDig (c : Char) : Bool := decide (48 ≤ c.toNat ∧ c.toNat ≤ 57)

/-- The month group `0[1-9]|1[012]` (code points: `0` = 48, `1` = 49,
`2` = 50, `9` = 57). -/
def monthAlt : List Char → Bool
  | [a, b] => decide ((a.toNat = 48 ∧ 49 ≤ b.toNat ∧ b.toNat ≤ 57) ∨
      (a.toNat = 49 ∧ (b.toNat = 48 ∨ b.toNat = 49 ∨ b.toNat = 50)))
  | _ => false

/-- The day group `0[1-9]|[12][0-9]|3[01]`. -/
def dayAlt : List Char → Bool
  | [a, b] => decide ((a.toNat = 48 ∧ 49 ≤ b.toNat ∧ b.toNat ≤ 57) ∨
      ((a.toNat = 49 ∨ a.toNat = 50) ∧ 48 ≤ b.toNat ∧ b.toNat ≤ 57) ∨
      (a.toNat = 51 ∧ (b.toNat = 48 ∨ b.toNat = 49)))
  | _ => false

/-- The hour group `[01]?\d|2[0-3]`: one or two characters. -/
def hourAlt : List Char → Bool
  | [b] => isDig b
  | [a, b] => (decide (a.toNat = 48 ∨ a.toNat = 49) && isDig b) ||
      decide (a.toNat = 50 ∧ 48 ≤ b.toNat ∧ b.toNat ≤ 51)
  | _ => false

/-- The minute/second group `[0-5]?\d`: one or two characters. -/
def sexAlt : List Char → Bool
  | [b] => isDig b
  | [a, b] => decide (48 ≤ a.toNat ∧ a.toNat ≤ 53) && isDig b
  | _ => false

/-- The time part `(?:(?:([01]?\d|2[0-3]))?([0-5]?\d))?([0-5]?\d)`:
seconds alone, or minutes then seconds, or hours then minutes then
seconds, with the split points searched explicitly. -/
def timePart (l : List Char) : Bool :=
  sexAlt l ||
  ((List.range (l.length + 1)).any fun i =>
    sexAlt (l.take i) && sexAlt (l.drop i)) ||
  ((List.range (l.length + 1)).any fun i =>
    hourAlt (l.take i) &&
      ((List.range ((l.drop i).length + 1)).any fun j =>
        sexAlt ((l.drop i).take j) && sexAlt ((l.drop i).drop j)))

/-- The whole anchored regex on a list of characters: four digits, a
month group, a day group, a literal `-`, then the time part. -/
def snapMatchL : List Char → Bool
  | y1 :: y2 :: y3 :: y4 :: m1 :: m2 :: d1 :: d2 :: c :: t =>
    isDig y1 && isDig y2 && isDig y3 && isDig y4 &&
      monthAlt [m1, m2] && dayAlt [d1, d2] && decide (c = '-') && timePart t
  | _ => false

/-- `SNAP_MATCH.is_match` on a string. -/
def SNAP_MATCH_is_match (s : String) : Bool := snapMatchL s.toList

/-! Sanity checks on concrete strings. -/

example : SNAP_MATCH_is_match "20210601-120000" = true := by decide
example : SNAP_MATCH_is_match "20210601-140000" = true := by decide
example : SNAP_MATCH_is_match "not-a-timestamp" = false := by decide
example : SNAP_MATCH_is_match "20211301-120000" = false := by decide
example : SNAP_MATCH_is_match "20210601-0000" = true := by decide

/-! ### Value-level characterization of the matcher -/

/-- The numeric value of a 1- or 2-character digit numeral. -/
def numVal : List Char → Nat
  | [b] => b.toNat - 48
  | [a, b] => 10 * (a.toNat - 48) + (b.toNat - 48)
  | _ => 0

/-- A 1- or 2-digit numeral whose value is at most `hi`. -/
def numeralLe (hi : Nat) (l : List Char) : Prop :=
  (∀ c ∈ l, isDig c = true) ∧ (l.length = 1 ∨ l.length = 2) ∧ numVal l ≤ hi

/-- A 2-digit numeral whose value lies in `[lo, hi]`. -/
def numeral2In (lo hi : Nat) (l : List Char) : Prop :=
  (∀ c ∈ l, isDig c = true) ∧ l.length = 2 ∧ lo ≤ numVal l ∧ numVal l ≤ hi

/-- The time-part language, by value: seconds alone, or minutes then
seconds, or hours then minutes then seconds, each a 1- or 2-digit
numeral, hours at most 23, minutes and seconds at most 59. -/
def timeSpec (t : List Char) : Prop :=
  numeralLe 59 t ∨
    (∃ m s, t = m ++ s ∧ numeralLe 59 m ∧ numeralLe 59 s) ∨
    (∃ h m s, t = h ++ m ++ s ∧ numeralLe 23 h ∧ numeralLe 59 m ∧ numeralLe 59 s)

/-- What the matcher accepts, by value: four digits, a month in
`[1, 12]`, a day in `[1, 31]`, a `-`, and a valid time part. -/
def snapSpec (l : List Char) : Prop :=
  ∃ y mo d t, l = y ++ mo ++ d ++ '-' :: t ∧
    y.length = 4 ∧ (∀ c ∈ y, isDig c = true) ∧
    numeral2In 1 12 mo ∧ numeral2In 1 31 d ∧ timeSpec t

theorem monthAlt_iff (a b : Char) :
    monthAlt [a, b] = true ↔ numeral2In 1 12 [a, b] := by
  simp [monthAlt, numeral2In, numVal, isDig]
  omega

theorem dayAlt_iff (a b : Char) :
    dayAlt [a, b] = true ↔ numeral2In 1 31 [a, b] := by
  simp [dayAlt, numeral2In, numVal, isDig]
  omega

theorem hourAlt_iff (l : List Char) :
    hourAlt l = true ↔ numeralLe 23 l := by
  match l with
  | [] => simp [hourAlt, numeralLe]
  | [b] =>
    simp [hourAlt, numeralLe, numVal, isDig]
    omega
  | [a, b] =>
    simp [hourAlt, numeralLe, numVal, isDig]
    omega
  | _ :: _ :: _ :: _ => simp [hourAlt, numeralLe]

theorem sexAlt_iff (l : List Char) :
    sexAlt l = true ↔ numeralLe 59 l := by
  match l with
  | [] => simp [sexAlt, numeralLe]
  | [b] =>
    simp [sexAlt, numeralLe, numVal, isDig]
    omega
  | [a, b] =>
    simp [sexAlt, numeralLe, numVal, isDig]
    omega
  | _ :: _ :: _ :: _ => simp [sexAlt, numeralLe]

theorem timePart_iff (t : List Char) : timePart t = true ↔ timeSpec t := by
  constructor
  · intro h
    rcases Bool.or_eq_true_iff.mp h with h | h
    · rcases Bool.or_eq_true_iff.mp h with h | h
      · exact Or.inl ((sexAlt_iff t).mp h)
      · obtain ⟨i, _, hi⟩ := List.any_eq_true.mp h
        obtain ⟨h1, h2⟩ := Bool.and_eq_true_iff.mp hi
        exact Or.inr (Or.inl ⟨t.take i, t.drop i, (List.take_append_drop i t).symm,
          (sexAlt_iff _).mp h1, (sexAlt_iff _).mp h2⟩)
    · obtain ⟨i, _, hi⟩ := List.any_eq_true.mp h
      obtain ⟨h1, h2⟩ := Bool.and_eq_true_iff.mp hi
      obtain ⟨j, _, hj⟩ := List.any_eq_true.mp h2
      obtain ⟨h3, h4⟩ := Bool.and_eq_true_iff.mp hj
      refine Or.inr (Or.inr ⟨t.take i, (t.drop i).take j, (t.drop i).drop j, ?_,
        (hourAlt_iff _).mp h1, (sexAlt_iff _).mp h3, (sexAlt_iff _).mp h4⟩)
      rw [List.append_assoc, List.take_append_drop, List.take_append_drop]
  · intro h
    rcases h with h | ⟨m, s, rfl, hm, hs⟩ | ⟨hh, m, s, rfl, hhh, hm, hs⟩
    · exact Bool.or_eq_true_iff.mpr (Or.inl (Bool.or_eq_true_iff.mpr
        (Or.inl ((sexAlt_iff t).mpr h))))
    · refine Bool.or_eq_true_iff.mpr (Or.inl (Bool.or_eq_true_iff.mpr
        (Or.inr (List.any_eq_true.mpr ⟨m.length, ?_, ?_⟩))))
      · simp
        omega
      · rw [List.take_left, List.drop_left]
        exact Bool.and_eq_true_iff.mpr ⟨(sexAlt_iff m).mpr hm, (sexAlt_iff s).mpr hs⟩
    · refine Bool.or_eq_true_iff.mpr (Or.inr (List.any_eq_true.mpr
        ⟨hh.length, ?_, ?_⟩))
      · simp
        omega
      · rw [List.append_assoc, List.take_left, List.drop_left]
        refine Bool.and_eq_true_iff.mpr ⟨(hourAlt_iff hh).mpr hhh,
          List.any_eq_true.mpr ⟨m.length, ?_, ?_⟩⟩
        · simp
          omega
        · rw [List.take_left, List.drop_left]
          exact Bool.and_eq_true_iff.mpr ⟨(sexAlt_iff m).mpr hm, (sexAlt_iff s).mpr hs⟩

theorem exists_pair_of_length_two {α : Type} (l : List α) (h : l.length = 2) :
    ∃ a b, l = [a, b] := by
  match l with
  | [a, b] => exact ⟨a, b, rfl⟩
  | [] => simp at h
  | [a] => simp at h
  | a :: b :: c :: t => simp at h

theorem exists_quad_of_length_four {α : Type} (l : List α) (h : l.length = 4) :
    ∃ a b c d, l = [a, b, c, d] := by
  match l with
  | [a, b, c, d] => exact ⟨a, b, c, d, rfl⟩
  | [] => simp at h
  | [a] => simp at h
  | [a, b] => simp at h
  | [a, b, c] => simp at h
  | a :: b :: c :: d :: e :: t => simp at h

/-- The matcher accepts exactly the value-level language `snapSpec`. -/
theorem snapMatchL_iff (l : List Char) : snapMatchL l = true ↔ snapSpec l := by
  constructor
  · intro h
    rcases l with _ | ⟨y1, _ | ⟨y2, _ | ⟨y3, _ | ⟨y4, _ | ⟨m1, _ | ⟨m2, _ |
      ⟨d1, _ | ⟨d2, _ | ⟨c, t⟩⟩⟩⟩⟩⟩⟩⟩⟩ <;> simp [snapMatchL] at h
    obtain ⟨⟨⟨⟨⟨⟨⟨h1, h2⟩, h3⟩, h4⟩, hmo⟩, hd⟩, hc⟩, ht⟩ := h
    subst hc
    refine ⟨[y1, y2, y3, y4], [m1, m2], [d1, d2], t, rfl, rfl, ?_,
      (monthAlt_iff m1 m2).mp hmo, (dayAlt_iff d1 d2).mp hd, (timePart_iff t).mp ht⟩
    simp [h1, h2, h3, h4]
  · rintro ⟨y, mo, d, t, rfl, hy4, hydig, hmo, hd, ht⟩
    obtain ⟨a1, a2, a3, a4, rfl⟩ := exists_quad_of_length_four y hy4
    obtain ⟨b1, b2, rfl⟩ := exists_pair_of_length_two mo hmo.2.1
    obtain ⟨c1, c2, rfl⟩ := exists_pair_of_length_two d hd.2.1
    have e1 := hydig a1 (by simp)
    have e2 := hydig a2 (by simp)
    have e3 := hydig a3 (by simp)
    have e4 := hydig a4 (by simp)
    have em := (monthAlt_iff b1 b2).mpr hmo
    have ed := (dayAlt_iff c1 c2).mpr hd
    have et := (timePart_iff t).mpr ht
    simp [snapMatchL, e1, e2, e3, e4, em, ed, et]

/-! ### Claim C4 -/

/-- A pair of digit characters whose two-digit value lies in `[lo, hi]`. -/
def twoDigitIn (lo hi : Nat) (a b : Char) : Bool :=
  isDig a && isDig b &&
    decide (lo ≤ 10 * (a.toNat - 48) + (b.toNat - 48) ∧
      10 * (a.toNat - 48) + (b.toNat - 48) ≤ hi)

/-- The shape C4 describes, written from the claim's words (for the
comparison with the matcher, not from the source): exactly
`YYYYMMDD-HHMMSS` with every field two digits wide, `MM` in `[01, 12]`,
`DD` in `[01, 31]`, `HH` in `[00, 23]` and optionally absent, and
minutes and seconds in `[00, 59]`. -/
def claimShapeL : List Char → Bool
  | y1 :: y2 :: y3 :: y4 :: m1 :: m2 :: d1 :: d2 :: c :: t =>
    isDig y1 && isDig y2 && isDig y3 && isDig y4 &&
      twoDigitIn 1 12 m1 m2 && twoDigitIn 1 31 d1 d2 && decide (c = '-') &&
      (match t with
       | [h1, h2, mi1, mi2, s1, s2] =>
         twoDigitIn 0 23 h1 h2 && twoDigitIn 0 59 mi1 mi2 && twoDigitIn 0 59 s1 s2
       | [mi1, mi2, s1, s2] => twoDigitIn 0 59 mi1 mi2 && twoDigitIn 0 59 s1 s2
       | _ => false)
  | _ => false

/-- `claimShapeL` on a string. -/
def claimShape (s : String) : Bool := claimShapeL s.toList

/-- Counterexample to C4 as stated: the matcher accepts `20210601-1`
(a single-digit seconds field, allowed by the `?` quantifiers in the
time groups), which is not of the claimed exact `YYYYMMDD-HHMMSS` /
`YYYYMMDD-MMSS` shape. -/
theorem claim_snap_match_counterexample :
    SNAP_MATCH_is_match "20210601-1" = true ∧ claimShape "20210601-1" = false := by
  decide

/-- C4 amended: for ASCII strings (the model covers the ASCII fragment
of Rust's Unicode-aware `\d`), the matcher accepts exactly the strings
of the form `YYYY MM DD - T` with four digits of year, a two-digit month
in `[01, 12]`, a two-digit day in `[01, 31]`, and time part `T` being
`SS`, `MM SS` or `HH MM SS` where each field is one or two digits wide,
hours at most 23, minutes and seconds at most 59. -/
theorem claim_snap_match_characterization (s : String)
    (_hascii : ∀ c ∈ s.toList, c.toNat ≤ 127) :
    SNAP_MATCH_is_match s = true ↔ snapSpec s.toList :=
  snapMatchL_iff s.toList

/-- Witness for C4: the characterization applied to the concrete
generated-format string `20210601-120000`. -/
theorem claim_snap_match_characterization_witness :
    SNAP_MATCH_is_match "20210601-120000" = true ↔ snapSpec "20210601-120000".toList :=
  claim_snap_match_characterization "20210601-120000" (by decide)

/-! ## Startup recovery: `SnapshotEngine::new`

The filesystem is abstracted to what the function observes: the outcome
of `fs::create_dir(DIR_SNAPROOT)` and, when the root already exists, the
listing returned by `fs::read_dir`, each entry carrying what
`path.is_file()` / `path.is_dir()` report and its file name as
`OsStr::to_str` sees it. -/

/-- What the two stat tests report for an entry: a regular file, a
directory, or neither (e.g. a dangling symlink). -/
inductive EntryKind
  | file
  | dir
  | other
  deriving Repr, DecidableEq

/-- One directory entry: its kind and its name (`none` when the name is
not valid unicode, i.e. `to_str` fails). -/
structure DirEntry where
  kind : EntryKind
  fname : Option String
  deriving Repr, DecidableEq

/-- Outcome of `fs::create_dir(DIR_SNAPROOT)`. -/
inductive CreateDirOutcome
  | ok
  | alreadyExists
  | otherErr
  deriving Repr, DecidableEq

/-- The filesystem state `SnapshotEngine::new` runs against. An
`Except.error` in `readDir` (or in one of its entries) stands for an OS
error during listing/iteration. -/
structure Fs where
  createDir : CreateDirOutcome
  readDir : Except Unit (List (Except Unit DirEntry))

/-- `SnapengineError`. -/
inductive SnapengineError
  | EngineError (msg : String)
  | IoError
  deriving Repr, DecidableEq

/-- `SnapshotEngine` (`dbref` is a borrowed handle with no state this
model needs). -/
structure SnapshotEngine where
  snaps : Queue
  deriving Repr, DecidableEq

/-- Error text for a file found in the snapshot root. -/
def msgUnrecognized : String :=
  "The snapshot directory contains unrecognized files/directories"

/-- Error text for an undecodable or non-matching entry name. -/
def msgInvalidChars : String :=
  "The snapshot file names have invalid characters. This should not happen! Please report an error"

/-- The recovery loop of `SnapshotEngine::new`: iteration errors become
`IoError`; a regular file is a fatal `EngineError`; an entry that is
not a directory has its name validated against `SNAP_MATCH` and is
collected (or is a fatal `EngineError`); a directory is skipped by the
`!path.is_dir()` test. -/
def collectSnaps : List (Except Unit DirEntry) → List String →
    Except SnapengineError (List String)
  | [], acc => .ok acc
  | .error _ :: _, _ => .error .IoError
  | .ok e :: rest, acc =>
    if e.kind = .file then
      .error (.EngineError msgUnrecognized)
    else if e.kind ≠ .dir then
      match e.fname with
      | none => .error (.EngineError msgInvalidChars)
      | some n =>
        if SNAP_MATCH_is_match n then collectSnaps rest (acc ++ [n])
        else .error (.EngineError msgInvalidChars)
    else
      collectSnaps rest acc

/-- `SnapshotEngine::new(maxtop, dbref)`: pick the queue configuration
(`maxtop == 0` means unbounded with the default capacity hint), create
the root if missing, otherwise recover from the existing root's
entries, seeding the queue with `init_pre` when anything was
collected. -/
def SnapshotEngine.new (maxtop : Nat) (fs : Fs) :
    Except SnapengineError SnapshotEngine :=
  let q_cfg : Nat × Bool :=
    if maxtop = 0 then (DEF_SNAPSHOT_COUNT, true) else (maxtop, false)
  match fs.createDir with
  | .ok => .ok ⟨Queue.new q_cfg⟩
  | .otherErr => .error .IoError
  | .alreadyExists =>
    match fs.readDir with
    | .error _ => .error .IoError
    | .ok entries =>
      match collectSnaps entries [] with
      | .error e => .error e
      | .ok snaps =>
        if snaps.isEmpty then .ok ⟨Queue.new q_cfg⟩
        else .ok ⟨Queue.init_pre q_cfg snaps⟩

/-- Every listing entry is an `Except.ok` (no iteration error). -/
def allOk (entries : List (Except Unit DirEntry)) : Bool :=
  entries.all fun x => match x with | .ok _ => true | .error _ => false

/-- Some listing entry is a regular file. -/
def hasFileEntry (entries : List (Except Unit DirEntry)) : Bool :=
  entries.any fun x =>
    match x with | .ok d => d.kind == EntryKind.file | .error _ => false

/-- If every listing entry is readable and one of them is a regular
file, the recovery loop ends in an `EngineError`. -/
theorem collectSnaps_file_error (entries : List (Except Unit DirEntry))
    (hok : allOk entries = true) (hfile : hasFileEntry entries = true)
    (acc : List String) :
    ∃ msg, collectSnaps entries acc = .error (.EngineError msg) := by
  induction entries generalizing acc with
  | nil => simp [hasFileEntry] at hfile
  | cons x rest ih =>
    cases x with
    | error u => simp [allOk] at hok
    | ok d =>
      have hok' : allOk rest = true := by simpa [allOk] using hok
      cases hk : d.kind with
      | file => exact ⟨msgUnrecognized, by simp [collectSnaps, hk]⟩
      | dir =>
        have hfile' : hasFileEntry rest = true := by
          simpa [hasFileEntry, hk] using hfile
        obtain ⟨msg, hmsg⟩ := ih hok' hfile' acc
        exact ⟨msg, by simpa [collectSnaps, hk] using hmsg⟩
      | other =>
        rcases hf : d.fname with _ | n
        · exact ⟨msgInvalidChars, by simp [collectSnaps, hk, hf]⟩
        · have hfile' : hasFileEntry rest = true := by
            simpa [hasFileEntry, hk] using hfile
          by_cases hm : SNAP_MATCH_is_match n = true
          · obtain ⟨msg, hmsg⟩ := ih hok' hfile' (acc ++ [n])
            exact ⟨msg, by simpa [collectSnaps, hk, hf, hm] using hmsg⟩
          · exact ⟨msgInvalidChars,
              by simp [collectSnaps, hk, hf, Bool.eq_false_iff.mpr hm]⟩

/-! ### Claims C1, C2, C10 -/

/-- C1 (code bug): a pre-existing root whose entries are the two validly
named subdirectories `20210601-120000` and `20210601-140000` yields an
engine whose queue is empty: the `!path.is_dir()` test skips every
directory, so nothing is ever recovered, where the claim (and the rest
of the module, which creates and deletes snapshots as directories)
expects exactly those two identifiers in the queue. -/
theorem claim_recovery_valid_dirs_bug :
    SnapshotEngine.new 10
      { createDir := .alreadyExists,
        readDir := .ok [.ok ⟨.dir, some "20210601-120000"⟩,
          .ok ⟨.dir, some "20210601-140000"⟩] } =
      .ok ⟨{ queue := [], maxlen := 10, dontpop := false }⟩ := by
  rfl

/-- C2 (code bug): a pre-existing root containing a subdirectory named
`not-a-timestamp` makes `SnapshotEngine::new` SUCCEED with an empty
queue — the directory is skipped before its name is ever validated —
where the claim expects a fatal `EngineError`. -/
theorem claim_recovery_malformed_dir_bug :
    SnapshotEngine.new 10
      { createDir := .alreadyExists,
        readDir := .ok [.ok ⟨.dir, some "not-a-timestamp"⟩] } =
      .ok ⟨{ queue := [], maxlen := 10, dontpop := false }⟩ := by
  rfl

/-- C10: during startup recovery, a readable listing containing a
regular file makes `SnapshotEngine::new` fail with `EngineError`, so no
engine is constructed. -/
theorem claim_recovery_rejects_files (maxtop : Nat)
    (entries : List (Except Unit DirEntry))
    (hok : allOk entries = true) (hfile : hasFileEntry entries = true) :
    ∃ msg, SnapshotEngine.new maxtop
        { createDir := .alreadyExists, readDir := .ok entries } =
      .error (.EngineError msg) := by
  obtain ⟨msg, hmsg⟩ := collectSnaps_file_error entries hok hfile []
  exact ⟨msg, by simp [SnapshotEngine.new, hmsg]⟩

/-- Witness for C10: one regular file alongside a valid snapshot
subdirectory. -/
theorem claim_recovery_rejects_files_witness :
    ∃ msg, SnapshotEngine.new 10
        { createDir := .alreadyExists,
          readDir := .ok [.ok ⟨.dir, some "20210601-120000"⟩,
            .ok ⟨.file, some "stray.bin"⟩] } =
      .error (.EngineError msg) :=
  claim_recovery_rejects_files 10
    [.ok ⟨.dir, some "20210601-120000"⟩, .ok ⟨.file, some "stray.bin"⟩] rfl rfl

end Snapshot
